import Mathlib

/-!
Verification development for the research-database search service.

The program under study is a read-only search layer over a relational
database of research publications, researchers and keywords
(`database/services.py`).  The database state is embedded as explicit
lists of table rows; each SQL statement of the service is embedded as a
pure Lean function over that state (filter for WHERE, an insertion sort
for ORDER BY, `List.take` for LIMIT, and an explicit left-join/group
construction for the aggregated publication SELECT).  The dispatcher
`SearchHandler.search` is translated clause by clause from the source.

Machine-level conventions:
* strings are Lean `String`s; Python `str.strip` / `str.upper` /
  `str.lower` are embedded as the structural functions `pyStrip`,
  `strUpper`, `strLower` below;
* SQL `LIKE` is embedded by `strLike` (wildcards `%` and `_`; the
  MySQL backslash-escape convention is not modelled: the service never
  inserts escape characters, and no property below exercises them);
* SQL `NULL` is `Option.none`; `ORDER BY x DESC` sorts with `NULL`
  last, as MySQL does for descending order;
* `GROUP BY rd.research_id` is modelled as one group per stored
  publication row, which is exact because `research_id` is the primary
  key of the publications table.
-/

/-- Embedding of Python `str.strip()`: drop leading and trailing
whitespace characters. -/
def pyStrip (s : String) : String :=
  ⟨((s.data.dropWhile Char.isWhitespace).reverse.dropWhile Char.isWhitespace).reverse⟩

/-- Embedding of Python `str.upper()` (ASCII case mapping suffices for
every property considered here). -/
def strUpper (s : String) : String := ⟨s.data.map Char.toUpper⟩

/-- Embedding of Python `str.lower()`. -/
def strLower (s : String) : String := ⟨s.data.map Char.toLower⟩

/-- Lexicographic comparison of character lists, used to embed SQL
`ORDER BY` on text columns and `ORDER BY ... SEPARATOR` inside
`GROUP_CONCAT`. -/
def lexLe : List Char → List Char → Bool
  | [], _ => true
  | _ :: _, [] => false
  | a :: as, b :: bs => if a = b then lexLe as bs else decide (a < b)

/-- SQL `LIKE` pattern matching: `%` matches any (possibly empty)
substring, `_` matches exactly one character, every other pattern
character matches itself.  The `fuel` argument only bounds the
recursion depth; `strLike` supplies `|pattern| + |subject| + 1`, which
each recursive call strictly exceeds in remaining work, so the `0`
case is never reached from `strLike`. -/
def likeFuel : Nat → List Char → List Char → Bool
  | 0, _, _ => false
  | _ + 1, [], [] => true
  | _ + 1, [], _ :: _ => false
  | fuel + 1, '%' :: ps, [] => likeFuel fuel ps []
  | fuel + 1, '%' :: ps, c :: s => likeFuel fuel ps (c :: s) || likeFuel fuel ('%' :: ps) s
  | _ + 1, '_' :: _, [] => false
  | fuel + 1, '_' :: ps, _ :: s => likeFuel fuel ps s
  | _ + 1, _ :: _, [] => false
  | fuel + 1, p :: ps, c :: s => (p == c) && likeFuel fuel ps s

/-- `strLike pat s` is SQL `s LIKE pat`. -/
def strLike (pat s : String) : Bool :=
  likeFuel (pat.data.length + s.data.length + 1) pat.data s.data

/-- SQL `<=` on nullable dates, with `NULL` below every value (so that
a descending sort puts `NULL` last, as MySQL does). -/
def dleB : Option Int → Option Int → Bool
  | none, _ => true
  | some _, none => false
  | some a, some b => decide (a ≤ b)

/-- A row of the `research_data` table. -/
structure ResearchRow where
  research_id : String
  title : String
  publication_date : Option Int
  research_type : String
  journal_id : Option String
  conference_id : Option String
deriving DecidableEq

/-- A row of the `researcher_data` table. -/
structure ResearcherRow where
  researcher_id : String
  name : String
  affiliation : String
  country : String
  email : String
  specialty : String
deriving DecidableEq

/-- A row of the `keywords` table. -/
structure KeywordRow where
  keyword_id : Int
  keyword : String
deriving DecidableEq

/-- A row of the `journals` table. -/
structure JournalRow where
  journal_id : String
  journal_name : String
deriving DecidableEq

/-- A row of the `conferences` table (the id column carries a BOM in
the physical schema; here it is just `conference_id`). -/
structure ConferenceRow where
  conference_id : String
  conference_name : String
deriving DecidableEq

/-- The database state: the five entity tables and the two
many-to-many join tables.  `research_keywords` holds
`(research_id, keyword_id)` pairs and `research_researchers` holds
`(research_id, researcher_id)` pairs. -/
structure DB where
  research_data : List ResearchRow
  researcher_data : List ResearcherRow
  keywords : List KeywordRow
  journals : List JournalRow
  conferences : List ConferenceRow
  research_keywords : List (String × Int)
  research_researchers : List (String × String)
deriving DecidableEq

/-- One row of the joined relation built by `RESEARCH_FULL_SELECT`
before grouping: the publication row together with the (nullable)
keyword-link, keyword, researcher-link and researcher columns
contributed by the four `LEFT JOIN`s. -/
structure JoinRow where
  linkK : Option (String × Int)
  kw : Option KeywordRow
  linkR : Option (String × String)
  res : Option ResearcherRow
deriving DecidableEq

/-- The keyword side of the join for one publication row:
`LEFT JOIN research_keywords rk ON rk.research_id = rd.research_id
LEFT JOIN keywords k ON k.keyword_id = rk.keyword_id`. -/
def kwSide (db : DB) (rd : ResearchRow) : List (Option (String × Int) × Option KeywordRow) :=
  let links := db.research_keywords.filter (fun l => l.1 == rd.research_id)
  if links.isEmpty then [(none, none)]
  else
    links.flatMap (fun l =>
      let ks := db.keywords.filter (fun k => k.keyword_id == l.2)
      if ks.isEmpty then [(some l, none)] else ks.map (fun k => (some l, some k)))

/-- The researcher side of the join for one publication row:
`LEFT JOIN research_researchers rr ON rr.research_id = rd.research_id
LEFT JOIN researcher_data r ON r.researcher_id = rr.researcher_id`. -/
def resSide (db : DB) (rd : ResearchRow) : List (Option (String × String) × Option ResearcherRow) :=
  let links := db.research_researchers.filter (fun l => l.1 == rd.research_id)
  if links.isEmpty then [(none, none)]
  else
    links.flatMap (fun l =>
      let rs := db.researcher_data.filter (fun r => r.researcher_id == l.2)
      if rs.isEmpty then [(some l, none)] else rs.map (fun r => (some l, some r)))

/-- All join rows contributed by one publication row (the cross
product of the two independent join chains). -/
def joinRows (db : DB) (rd : ResearchRow) : List JoinRow :=
  (kwSide db rd).flatMap (fun a => (resSide db rd).map (fun b => ⟨a.1, a.2, b.1, b.2⟩))

/-- A record produced by `RESEARCH_FULL_SELECT`: the grouped
publication columns plus the two `GROUP_CONCAT` aggregates. -/
structure ResearchFull where
  research_id : String
  title : String
  publication_date : Option Int
  research_type : String
  journal_id : Option String
  journal_name : Option String
  conference_id : Option String
  conference_name : Option String
  keywords : Option String
  researchers : Option String
deriving DecidableEq

/-- Ascending text order used for SQL `ORDER BY` on strings. -/
def strLE (a b : String) : Prop := lexLe a.data b.data = true

instance : DecidableRel strLE :=
  fun a b => inferInstanceAs (Decidable (lexLe a.data b.data = true))

/-- Descending publication-date order (`ORDER BY MAX(rd.publication_date)
DESC`): `a` comes no later in the output than `b` when `b`'s date is at
most `a`'s, with `NULL` dates last. -/
def pubDateGE (a b : ResearchFull) : Prop :=
  dleB b.publication_date a.publication_date = true

instance : DecidableRel pubDateGE :=
  fun a b => inferInstanceAs (Decidable (dleB b.publication_date a.publication_date = true))

/-- `ORDER BY name` on researcher rows. -/
def nameLE (a b : ResearcherRow) : Prop := lexLe a.name.data b.name.data = true

instance : DecidableRel nameLE :=
  fun a b => inferInstanceAs (Decidable (lexLe a.name.data b.name.data = true))

/-- `ORDER BY keyword` on keyword rows. -/
def kwLE (a b : KeywordRow) : Prop := lexLe a.keyword.data b.keyword.data = true

instance : DecidableRel kwLE :=
  fun a b => inferInstanceAs (Decidable (lexLe a.keyword.data b.keyword.data = true))

/-- The group for one publication row under a given `WHERE` predicate:
`None` when no join row survives the filter (the publication then
contributes no output row), otherwise the aggregated record.  Each
`MAX` over a constant-per-group column is that column's value; the two
`GROUP_CONCAT(DISTINCT ... ORDER BY ...)` aggregates deduplicate, sort
and join the non-null values (SQL yields `NULL` when every value is
`NULL`). -/
def groupRecord (db : DB) (pred : ResearchRow → JoinRow → Bool) (rd : ResearchRow) :
    Option ResearchFull :=
  let rows := (joinRows db rd).filter (pred rd)
  if rows.isEmpty then none
  else
    some
      { research_id := rd.research_id
        title := rd.title
        publication_date := rd.publication_date
        research_type := rd.research_type
        journal_id := rd.journal_id
        journal_name :=
          rd.journal_id.bind (fun j =>
            ((db.journals.filter (fun jr => jr.journal_id == j)).head?).map
              (fun jr => jr.journal_name))
        conference_id := rd.conference_id
        conference_name :=
          rd.conference_id.bind (fun c =>
            ((db.conferences.filter (fun cr => cr.conference_id == c)).head?).map
              (fun cr => cr.conference_name))
        keywords :=
          let ks := ((rows.filterMap (fun jr => jr.kw)).map (fun k => k.keyword)).dedup
          if ks.isEmpty then none
          else some (String.intercalate ", " (List.insertionSort strLE ks))
        researchers :=
          let rs :=
            ((rows.filterMap (fun jr => jr.res)).map
              (fun r => r.researcher_id ++ " - " ++ r.name)).dedup
          if rs.isEmpty then none
          else some (String.intercalate " | " (List.insertionSort strLE rs)) }

/-- `RESEARCH_FULL_SELECT ... WHERE pred GROUP BY rd.research_id`:
one aggregated record per publication row with at least one surviving
join row. -/
def fullSelect (db : DB) (pred : ResearchRow → JoinRow → Bool) : List ResearchFull :=
  db.research_data.filterMap (groupRecord db pred)

/-- `ORDER BY MAX(rd.publication_date) DESC LIMIT limit`. -/
def sortTake (l : List ResearchFull) (limit : Nat) : List ResearchFull :=
  (List.insertionSort pubDateGE l).take limit

namespace ResearchDataHandler

/-- `ResearchDataHandler.get_by_id`: the full select filtered on the
uppercased identifier; first row or `None`. -/
def get_by_id (db : DB) (research_id : String) : Option ResearchFull :=
  (fullSelect db (fun rd _ => rd.research_id == strUpper research_id)).head?

/-- `ResearchDataHandler.get_by_ids`: empty input short-circuits to the
empty list; otherwise membership filter, date-descending order, limit. -/
def get_by_ids (db : DB) (research_ids : List String) (limit : Nat) : List ResearchFull :=
  if research_ids.isEmpty then []
  else sortTake (fullSelect db (fun rd _ => research_ids.contains rd.research_id)) limit

/-- `ResearchDataHandler.get_by_keyword_ids`: publications whose
keyword-link column is one of the given keyword ids. -/
def get_by_keyword_ids (db : DB) (keyword_ids : List Int) (limit : Nat) : List ResearchFull :=
  if keyword_ids.isEmpty then []
  else
    sortTake
      (fullSelect db (fun _ jr =>
        match jr.linkK with
        | some l => keyword_ids.contains l.2
        | none => false))
      limit

/-- `ResearchDataHandler.get_by_researcher_id`: publications whose
researcher-link column equals the uppercased researcher id. -/
def get_by_researcher_id (db : DB) (researcher_id : String) (limit : Nat) : List ResearchFull :=
  sortTake
    (fullSelect db (fun _ jr =>
      match jr.linkR with
      | some l => l.2 == strUpper researcher_id
      | none => false))
    limit

/-- `ResearchDataHandler.search_by_name_prefix`:
`LOWER(r.name) LIKE '<lowered text>%'`. -/
def search_by_name_prefix (db : DB) ( name_prefix : String) (limit : Nat) : List ResearchFull :=
  sortTake
    (fullSelect db (fun _ jr =>
      match jr.res with
      | some r => strLike (strLower name_prefix ++ "%") (strLower r.name)
      | none => false))
    limit

/-- `ResearchDataHandler.search_by_name`:
`LOWER(r.name) LIKE '%<lowered text>%'`. -/
def search_by_name (db : DB) (name : String) (limit : Nat) : List ResearchFull :=
  sortTake
    (fullSelect db (fun _ jr =>
      match jr.res with
      | some r => strLike ("%" ++ strLower name ++ "%") (strLower r.name)
      | none => false))
    limit

/-- `ResearchDataHandler.search_by_title`:
`LOWER(rd.title) LIKE '%<lowered text>%'`. -/
def search_by_title (db : DB) (title : String) (limit : Nat) : List ResearchFull :=
  sortTake
    (fullSelect db (fun rd _ => strLike ("%" ++ strLower title ++ "%") (strLower rd.title)))
    limit

end ResearchDataHandler

namespace ResearcherDataHandler

/-- `ResearcherDataHandler.get_by_id`: exact match on the uppercased
identifier; first row or `None`. -/
def get_by_id (db : DB) (researcher_id : String) : Option ResearcherRow :=
  (db.researcher_data.filter (fun r => r.researcher_id == strUpper researcher_id)).head?

/-- `ResearcherDataHandler.search_by_name_prefix`:
`LOWER(name) LIKE '<lowered text>%' ORDER BY name LIMIT limit`. -/
def search_by_name_prefix (db : DB) ( name_prefix : String) (limit : Nat) : List ResearcherRow :=
  (List.insertionSort nameLE
      (db.researcher_data.filter (fun r =>
        strLike (strLower name_prefix ++ "%") (strLower r.name)))).take limit

/-- `ResearcherDataHandler.search_by_name`: the lowered text as an
infix of name, email or affiliation; ordered by name, limited. -/
def search_by_name (db : DB) (name : String) (limit : Nat) : List ResearcherRow :=
  (List.insertionSort nameLE
      (db.researcher_data.filter (fun r =>
        strLike ("%" ++ strLower name ++ "%") (strLower r.name) ||
        strLike ("%" ++ strLower name ++ "%") (strLower r.email) ||
        strLike ("%" ++ strLower name ++ "%") (strLower r.affiliation)))).take limit

end ResearcherDataHandler

namespace KeywordDataHandler

/-- `KeywordDataHandler.search_exact`:
`LOWER(keyword) = <lowered text> ORDER BY keyword LIMIT limit`. -/
def search_exact (db : DB) (keyword : String) (limit : Nat) : List KeywordRow :=
  (List.insertionSort kwLE
      (db.keywords.filter (fun k => strLower k.keyword == strLower keyword))).take limit

/-- `KeywordDataHandler.search_contains`:
`LOWER(keyword) LIKE '%<lowered text>%' ORDER BY keyword LIMIT limit`. -/
def search_contains (db : DB) (keyword : String) (limit : Nat) : List KeywordRow :=
  (List.insertionSort kwLE
      (db.keywords.filter (fun k =>
        strLike ("%" ++ strLower keyword ++ "%") (strLower k.keyword)))).take limit

end KeywordDataHandler

/-- The result bundle built by `SearchHandler.search`. -/
structure SearchResult where
  q : String
  search_type : Option String
  researchers : List ResearcherRow
  research : List ResearchFull
  keywords : List KeywordRow
deriving DecidableEq

namespace SearchHandler

/-- `SearchHandler.is_research_id`: the uppercased query fully matches
`P` followed by exactly three digits. -/
def is_research_id (query : String) : Bool :=
  match (strUpper query).data with
  | [a, d1, d2, d3] => a == 'P' && d1.isDigit && d2.isDigit && d3.isDigit
  | _ => false

/-- `SearchHandler.is_researcher_id`: the uppercased query fully
matches `R` followed by exactly three digits. -/
def is_researcher_id (query : String) : Bool :=
  match (strUpper query).data with
  | [a, d1, d2, d3] => a == 'R' && d1.isDigit && d2.isDigit && d3.isDigit
  | _ => false

/-- `SearchHandler.is_single_char`. -/
def is_single_char (query : String) : Bool :=
  query.length == 1

/-- `SearchHandler.search`: the priority dispatcher, translated clause
by clause.  Limits `200` and `50` are the source's default arguments,
applied at the call sites. -/
def search (db : DB) (query : String) : SearchResult :=
  let result : SearchResult :=
    { q := query, search_type := none, researchers := [], research := [], keywords := [] }
  if query == "" || pyStrip query == "" then result
  else
    let q := pyStrip query
    if is_research_id q then
      { result with
        search_type := some "research_id"
        research :=
          match ResearchDataHandler.get_by_id db q with
          | some r => [r]
          | none => [] }
    else if is_researcher_id q then
      { result with
        search_type := some "researcher_id"
        researchers :=
          match ResearcherDataHandler.get_by_id db q with
          | some r => [r]
          | none => []
        research := ResearchDataHandler.get_by_researcher_id db q 200 }
    else
      let kws := KeywordDataHandler.search_exact db q 50
      if !kws.isEmpty then
        { result with
          search_type := some "keyword"
          keywords := kws
          research :=
            ResearchDataHandler.get_by_keyword_ids db (kws.map (fun kw => kw.keyword_id)) 200 }
      else
        let title_research := ResearchDataHandler.search_by_title db q 200
        if !title_research.isEmpty then
          { result with search_type := some "title", research := title_research }
        else if is_single_char q then
          { result with
            search_type := some "first_character"
            researchers := ResearcherDataHandler.search_by_name_prefix db q 200
            research := ResearchDataHandler.search_by_name_prefix db q 200 }
        else
          { result with
            search_type := some "name"
            researchers := ResearcherDataHandler.search_by_name db q 200
            research := ResearchDataHandler.search_by_name db q 200 }

end SearchHandler

/-! ## Concrete database states used to instantiate the theorems -/

/-- A small populated database: two publications, two researchers, two
keywords, with P001 tagged "Databases" and written by R001, and P002
written by R001 and R002. -/
def dbMain : DB where
  research_data :=
    [ { research_id := "P001", title := "Advances in Databases", publication_date := some 1000,
        research_type := "journal", journal_id := some "J1", conference_id := none },
      { research_id := "P002", title := "Machine Learning Basics", publication_date := none,
        research_type := "conference", journal_id := none, conference_id := some "C1" } ]
  researcher_data :=
    [ { researcher_id := "R001", name := "Alice Smith", affiliation := "MIT",
        country := "US", email := "alice@mit.edu", specialty := "databases" },
      { researcher_id := "R002", name := "Bob Jones", affiliation := "CMU",
        country := "US", email := "bob@cmu.edu", specialty := "ml" } ]
  keywords := [ { keyword_id := 1, keyword := "Databases" }, { keyword_id := 2, keyword := "ml" } ]
  journals := [ { journal_id := "J1", journal_name := "JDB" } ]
  conferences := [ { conference_id := "C1", conference_name := "NeurIPS" } ]
  research_keywords := [("P001", 1), ("P002", 2)]
  research_researchers := [("P001", "R001"), ("P002", "R001"), ("P002", "R002")]

/-- A database in which the single-character query "z" matches no
keyword and no title, but one researcher name starts with it. -/
def dbSingle : DB where
  research_data :=
    [ { research_id := "P010", title := "Machine Learning Basics", publication_date := some 7,
        research_type := "journal", journal_id := none, conference_id := none } ]
  researcher_data :=
    [ { researcher_id := "R010", name := "Zoe Doe", affiliation := "ETH",
        country := "CH", email := "zoe@ethz.ch", specialty := "systems" } ]
  keywords := []
  journals := []
  conferences := []
  research_keywords := []
  research_researchers := [("P010", "R010")]

/-- A database whose keyword vocabulary contains the single-character
keyword "a". -/
def dbK : DB where
  research_data := []
  researcher_data := []
  keywords := [ { keyword_id := 7, keyword := "a" } ]
  journals := []
  conferences := []
  research_keywords := []
  research_researchers := []

/-- A database with one publication whose title contains no SQL
wildcard character. -/
def dbT : DB where
  research_data :=
    [ { research_id := "P005", title := "abc", publication_date := some 5,
        research_type := "journal", journal_id := none, conference_id := none } ]
  researcher_data := []
  keywords := []
  journals := []
  conferences := []
  research_keywords := []
  research_researchers := []

/-! ## General lemmas about the embedded operations -/

/-- Anything in a sorted-and-truncated publication list was in the
unsorted list. -/
lemma mem_of_mem_sortTake {x : ResearchFull} {l : List ResearchFull} {n : Nat}
    (h : x ∈ sortTake l n) : x ∈ l := by
  unfold sortTake at h
  exact (List.perm_insertionSort pubDateGE l).mem_iff.mp (List.take_subset n _ h)

/-- When the unsorted list already fits under the limit, sorting and
truncating only permutes it. -/
lemma sortTake_perm_of_le {l : List ResearchFull} {n : Nat} (h : l.length ≤ n) :
    List.Perm (sortTake l n) l := by
  unfold sortTake
  rw [List.take_of_length_le (by rw [(List.perm_insertionSort pubDateGE l).length_eq]; exact h)]
  exact List.perm_insertionSort pubDateGE l

lemma dleB_total (x y : Option Int) : dleB x y = true ∨ dleB y x = true := by
  cases x <;> cases y <;> simp [dleB] <;> omega

lemma dleB_trans {x y z : Option Int} (h1 : dleB x y = true) (h2 : dleB y z = true) :
    dleB x z = true := by
  cases x <;> cases y <;> cases z <;> simp_all [dleB] <;> omega

instance : IsTotal ResearchFull pubDateGE :=
  ⟨fun a b => dleB_total b.publication_date a.publication_date⟩

instance : IsTrans ResearchFull pubDateGE :=
  ⟨fun _ _ _ h1 h2 => dleB_trans h2 h1⟩

/-- The truncated output is no longer than the limit. -/
lemma length_sortTake_le (l : List ResearchFull) (n : Nat) : (sortTake l n).length ≤ n :=
  List.length_take_le _ _

/-- The truncated output is ordered by publication date descending. -/
lemma sorted_sortTake (l : List ResearchFull) (n : Nat) :
    List.Sorted pubDateGE (sortTake l n) :=
  (List.sorted_insertionSort pubDateGE l).sublist (List.take_sublist _ _)

/-- Members of a full-select result come from stored publication rows. -/
lemma mem_fullSelect {db : DB} {pred : ResearchRow → JoinRow → Bool} {p : ResearchFull}
    (h : p ∈ fullSelect db pred) :
    ∃ rd ∈ db.research_data, groupRecord db pred rd = some p := by
  unfold fullSelect at h
  exact List.mem_filterMap.mp h

/-- A produced group record carries its row's identifier and owes its
existence to a join row passing the `WHERE` predicate. -/
lemma groupRecord_eq_some {db : DB} {pred : ResearchRow → JoinRow → Bool} {rd : ResearchRow}
    {p : ResearchFull} (h : groupRecord db pred rd = some p) :
    p.research_id = rd.research_id ∧ ∃ jr ∈ joinRows db rd, pred rd jr = true := by
  unfold groupRecord at h
  simp only [] at h
  split at h
  · exact absurd h (by simp)
  · next hne =>
    refine ⟨?_, ?_⟩
    · rw [← Option.some.inj h]
    · have hne' : (joinRows db rd).filter (pred rd) ≠ [] := by
        intro e
        rw [e] at hne
        simp at hne
      obtain ⟨jr, hjr⟩ := List.exists_mem_of_ne_nil _ hne'
      exact ⟨jr, (List.mem_filter.mp hjr).1, (List.mem_filter.mp hjr).2⟩

/-- A non-null researcher-link column of a join row is a stored
researcher link of that publication. -/
lemma resSide_link {db : DB} {rd : ResearchRow} {x : Option (String × String) × Option ResearcherRow}
    {l : String × String} (hx : x ∈ resSide db rd) (h1 : x.1 = some l) :
    l ∈ db.research_researchers ∧ l.1 = rd.research_id := by
  unfold resSide at hx
  simp only [] at hx
  split at hx
  · simp only [List.mem_singleton] at hx
    rw [hx] at h1
    exact absurd h1 (by simp)
  · obtain ⟨lnk, hlnk, hx'⟩ := List.mem_flatMap.mp hx
    have hmem := List.mem_filter.mp hlnk
    have hfst : lnk.1 = rd.research_id := eq_of_beq hmem.2
    split at hx'
    · simp only [List.mem_singleton] at hx'
      rw [hx'] at h1
      simp only [Option.some.injEq] at h1
      exact h1 ▸ ⟨hmem.1, hfst⟩
    · obtain ⟨r, _, hr⟩ := List.mem_map.mp hx'
      rw [← hr] at h1
      simp only [Option.some.injEq] at h1
      exact h1 ▸ ⟨hmem.1, hfst⟩

/-- A non-null keyword-link column of a join row is a stored keyword
link of that publication. -/
lemma kwSide_link {db : DB} {rd : ResearchRow} {x : Option (String × Int) × Option KeywordRow}
    {l : String × Int} (hx : x ∈ kwSide db rd) (h1 : x.1 = some l) :
    l ∈ db.research_keywords ∧ l.1 = rd.research_id := by
  unfold kwSide at hx
  simp only [] at hx
  split at hx
  · simp only [List.mem_singleton] at hx
    rw [hx] at h1
    exact absurd h1 (by simp)
  · obtain ⟨lnk, hlnk, hx'⟩ := List.mem_flatMap.mp hx
    have hmem := List.mem_filter.mp hlnk
    have hfst : lnk.1 = rd.research_id := eq_of_beq hmem.2
    split at hx'
    · simp only [List.mem_singleton] at hx'
      rw [hx'] at h1
      simp only [Option.some.injEq] at h1
      exact h1 ▸ ⟨hmem.1, hfst⟩
    · obtain ⟨r, _, hr⟩ := List.mem_map.mp hx'
      rw [← hr] at h1
      simp only [Option.some.injEq] at h1
      exact h1 ▸ ⟨hmem.1, hfst⟩

/-- The researcher-link column of any join row of a publication is
either null or a stored link of that publication. -/
lemma joinRows_linkR {db : DB} {rd : ResearchRow} {jr : JoinRow} {l : String × String}
    (hjr : jr ∈ joinRows db rd) (hl : jr.linkR = some l) :
    l ∈ db.research_researchers ∧ l.1 = rd.research_id := by
  unfold joinRows at hjr
  obtain ⟨a, _, hb⟩ := List.mem_flatMap.mp hjr
  obtain ⟨b, hbmem, hbeq⟩ := List.mem_map.mp hb
  have : jr.linkR = b.1 := by rw [← hbeq]
  exact resSide_link hbmem (this ▸ hl)

/-- The keyword-link column of any join row of a publication is either
null or a stored link of that publication. -/
lemma joinRows_linkK {db : DB} {rd : ResearchRow} {jr : JoinRow} {l : String × Int}
    (hjr : jr ∈ joinRows db rd) (hl : jr.linkK = some l) :
    l ∈ db.research_keywords ∧ l.1 = rd.research_id := by
  unfold joinRows at hjr
  obtain ⟨a, ha, hb⟩ := List.mem_flatMap.mp hjr
  obtain ⟨b, _, hbeq⟩ := List.mem_map.mp hb
  have : jr.linkK = a.1 := by rw [← hbeq]
  exact kwSide_link ha (this ▸ hl)

/-- A query whose uppercased trim matches the researcher-id pattern
cannot also match the research-id pattern: the first character would
have to be both `R` and `P`. -/
lemma is_research_id_eq_false_of_researcher {s : String}
    (h : SearchHandler.is_researcher_id s = true) :
    SearchHandler.is_research_id s = false := by
  unfold SearchHandler.is_researcher_id at h
  unfold SearchHandler.is_research_id
  revert h
  generalize (strUpper s).data = l
  rcases l with _ | ⟨a, _ | ⟨b, _ | ⟨c, _ | ⟨d, _ | t⟩⟩⟩⟩ <;> intro h
  · simp at h
  · simp at h
  · simp at h
  · simp at h
  · simp only [Bool.and_eq_true, beq_iff_eq] at h
    obtain ⟨⟨⟨ha, _⟩, _⟩, _⟩ := h
    subst ha
    rfl
  · simp at h

/-- A one-character string matches neither identifier pattern. -/
lemma id_patterns_false_of_single {s : String} (h : s.length = 1) :
    SearchHandler.is_research_id s = false ∧ SearchHandler.is_researcher_id s = false := by
  obtain ⟨a, ha⟩ := List.length_eq_one.mp h
  constructor <;>
    simp [SearchHandler.is_research_id, SearchHandler.is_researcher_id, strUpper, ha]

/-- The guard of the dispatcher is false exactly when the stripped
query is non-empty. -/
lemma search_guard_false {q : String} (h : pyStrip q ≠ "") :
    (q == "" || pyStrip q == "") = false := by
  have hq : q ≠ "" := by
    intro e
    exact h (by rw [e]; decide)
  rw [Bool.or_eq_false_iff]
  exact ⟨beq_eq_false_iff_ne.mpr hq, beq_eq_false_iff_ne.mpr h⟩

/-- An option rendered as a list has at most one element. -/
lemma toList_length_le_one (o : Option ResearcherRow) : o.toList.length ≤ 1 := by
  cases o <;> simp

/-- A non-empty witness in the keyword vocabulary makes the exact
keyword lookup non-empty. -/
lemma search_exact_isEmpty_false {db : DB} {q' : String}
    (hk : ∃ k ∈ db.keywords, strLower k.keyword = strLower q') :
    (KeywordDataHandler.search_exact db q' 50).isEmpty = false := by
  obtain ⟨k, hkm, hke⟩ := hk
  unfold KeywordDataHandler.search_exact
  have h1 : k ∈ db.keywords.filter (fun k => strLower k.keyword == strLower q') :=
    List.mem_filter.mpr ⟨hkm, by simp [hke]⟩
  have h2 : 0 < (db.keywords.filter (fun k => strLower k.keyword == strLower q')).length :=
    List.length_pos.mpr (List.ne_nil_of_mem h1)
  have h3 :
      0 < (List.insertionSort kwLE
        (db.keywords.filter (fun k => strLower k.keyword == strLower q'))).length := by
    rw [(List.perm_insertionSort kwLE _).length_eq]
    exact h2
  have h4 :
      (List.insertionSort kwLE
        (db.keywords.filter (fun k => strLower k.keyword == strLower q'))).take 50 ≠ [] := by
    apply List.length_pos.mp
    rw [List.length_take]
    omega
  cases e :
      ((List.insertionSort kwLE
        (db.keywords.filter (fun k => strLower k.keyword == strLower q'))).take 50).isEmpty
  · rfl
  · exact absurd (List.isEmpty_iff.mp e) h4

/-! ## The claims -/

/-- C5: for every input that is empty or consists only of whitespace,
`search` returns the bundle with `search_type = none` and all three
result lists empty; the bundle does not depend on the database state,
so no lookup is issued. -/
theorem C5_empty_query (db : DB) (q : String) (h : pyStrip q = "") :
    SearchHandler.search db q =
      { q := q, search_type := none, researchers := [], research := [], keywords := [] } := by
  have hg : (q == "" || pyStrip q == "") = true := by
    rw [h]
    simp
  simp [SearchHandler.search, hg]

/-- C5 witness: a whitespace-only query on the populated database. -/
theorem C5_empty_query_witness :
    SearchHandler.search dbMain "   " =
      { q := "   ", search_type := none, researchers := [], research := [], keywords := [] } :=
  C5_empty_query dbMain "   " (by decide)

/-- C8: on the empty identifier list, both batched publication lookups
return the empty list for every database state and every limit, and the
result does not depend on the database state at all (no query is
issued). -/
theorem C8_empty_ids (db : DB) (limit : Nat) :
    ResearchDataHandler.get_by_ids db [] limit = [] ∧
    ResearchDataHandler.get_by_keyword_ids db [] limit = [] ∧
    (∀ db' : DB, ResearchDataHandler.get_by_ids db [] limit =
      ResearchDataHandler.get_by_ids db' [] limit) ∧
    (∀ db' : DB, ResearchDataHandler.get_by_keyword_ids db [] limit =
      ResearchDataHandler.get_by_keyword_ids db' [] limit) :=
  ⟨rfl, rfl, fun _ => rfl, fun _ => rfl⟩

/-- C9: the dispatcher is deterministic — the same query against the
same database state yields the identical result bundle, ordering
included. -/
theorem C9_deterministic (db1 db2 : DB) (q1 q2 : String) (hdb : db1 = db2) (hq : q1 = q2) :
    SearchHandler.search db1 q1 = SearchHandler.search db2 q2 := by
  rw [hdb, hq]

/-- C9 witness: two identical invocations on the populated database. -/
theorem C9_deterministic_witness :
    SearchHandler.search dbMain "alice" = SearchHandler.search dbMain "alice" :=
  C9_deterministic dbMain dbMain "alice" "alice" rfl rfl

/-- C6: every multi-row publication lookup returns at most `limit`
records, ordered by publication date descending (`pubDateGE`; ties and
null dates are not further constrained). -/
theorem C6_limit_and_order (db : DB) (limit : Nat) :
    (∀ ids, (ResearchDataHandler.get_by_ids db ids limit).length ≤ limit ∧
      List.Sorted pubDateGE (ResearchDataHandler.get_by_ids db ids limit)) ∧
    (∀ kids, (ResearchDataHandler.get_by_keyword_ids db kids limit).length ≤ limit ∧
      List.Sorted pubDateGE (ResearchDataHandler.get_by_keyword_ids db kids limit)) ∧
    (∀ rid, (ResearchDataHandler.get_by_researcher_id db rid limit).length ≤ limit ∧
      List.Sorted pubDateGE (ResearchDataHandler.get_by_researcher_id db rid limit)) ∧
    (∀ s, (ResearchDataHandler.search_by_name_prefix db s limit).length ≤ limit ∧
      List.Sorted pubDateGE (ResearchDataHandler.search_by_name_prefix db s limit)) ∧
    (∀ s, (ResearchDataHandler.search_by_name db s limit).length ≤ limit ∧
      List.Sorted pubDateGE (ResearchDataHandler.search_by_name db s limit)) ∧
    (∀ s, (ResearchDataHandler.search_by_title db s limit).length ≤ limit ∧
      List.Sorted pubDateGE (ResearchDataHandler.search_by_title db s limit)) := by
  refine ⟨fun ids => ?_, fun kids => ?_, fun rid => ?_, fun s => ?_, fun s => ?_, fun s => ?_⟩
  · unfold ResearchDataHandler.get_by_ids
    split
    · exact ⟨by simp, List.sorted_nil⟩
    · exact ⟨length_sortTake_le _ _, sorted_sortTake _ _⟩
  · unfold ResearchDataHandler.get_by_keyword_ids
    split
    · exact ⟨by simp, List.sorted_nil⟩
    · exact ⟨length_sortTake_le _ _, sorted_sortTake _ _⟩
  · exact ⟨length_sortTake_le _ _, sorted_sortTake _ _⟩
  · exact ⟨length_sortTake_le _ _, sorted_sortTake _ _⟩
  · exact ⟨length_sortTake_le _ _, sorted_sortTake _ _⟩
  · exact ⟨length_sortTake_le _ _, sorted_sortTake _ _⟩

/-- C1: a query whose stripped, uppercased form is `P` plus three
digits is classified `research_id`; the publication list is exactly the
single publication found by `get_by_id`, or empty, hence of length at
most one. -/
theorem C1_publication_id (db : DB) (q : String)
    (h : SearchHandler.is_research_id (pyStrip q) = true) :
    (SearchHandler.search db q).search_type = some "research_id" ∧
    (SearchHandler.search db q).research =
      (ResearchDataHandler.get_by_id db (pyStrip q)).toList ∧
    (SearchHandler.search db q).research.length ≤ 1 := by
  have hne : pyStrip q ≠ "" := by
    intro e
    rw [e] at h
    exact absurd h (by decide)
  have hg := search_guard_false hne
  have heq : SearchHandler.search db q =
      { q := q, search_type := some "research_id", researchers := [],
        research := (ResearchDataHandler.get_by_id db (pyStrip q)).toList,
        keywords := [] } := by
    rcases hgb : ResearchDataHandler.get_by_id db (pyStrip q) with _ | r <;>
      simp [SearchHandler.search, hg, h, hgb, Option.toList]
  rw [heq]
  refine ⟨rfl, rfl, ?_⟩
  cases ResearchDataHandler.get_by_id db (pyStrip q) <;> simp

/-- C1 witness: the query " p001 " (lowercase, padded) on the
populated database. -/
theorem C1_publication_id_witness :
    (SearchHandler.search dbMain " p001 ").search_type = some "research_id" ∧
    (SearchHandler.search dbMain " p001 ").research =
      (ResearchDataHandler.get_by_id dbMain (pyStrip " p001 ")).toList ∧
    (SearchHandler.search dbMain " p001 ").research.length ≤ 1 :=
  C1_publication_id dbMain " p001 " (by decide)

/-- A boolean that is not true is false. -/
lemma bool_eq_false {b : Bool} (h : ¬ b = true) : b = false := by
  cases b
  · rfl
  · exact absurd rfl h

/-- C2: a query whose stripped, uppercased form is `R` plus three
digits is classified `researcher_id`; the researcher list is the exact
uppercased-id lookup result (hence of length at most one), the
publication list is the researcher's publication lookup, each returned
publication is linked to that researcher id in the join table, and
whenever the publications linked to the researcher fit under the limit
the returned list is exactly all of them (up to ordering). -/
theorem C2_researcher_id (db : DB) (q : String)
    (h : SearchHandler.is_researcher_id (pyStrip q) = true) :
    (SearchHandler.search db q).search_type = some "researcher_id" ∧
    (SearchHandler.search db q).researchers =
      (ResearcherDataHandler.get_by_id db (pyStrip q)).toList ∧
    (SearchHandler.search db q).researchers.length ≤ 1 ∧
    (SearchHandler.search db q).research =
      ResearchDataHandler.get_by_researcher_id db (pyStrip q) 200 ∧
    (∀ p ∈ (SearchHandler.search db q).research, ∃ lnk ∈ db.research_researchers,
        lnk.1 = p.research_id ∧ lnk.2 = strUpper (pyStrip q)) ∧
    ((fullSelect db (fun _ jr =>
        match jr.linkR with
        | some l => l.2 == strUpper (pyStrip q)
        | none => false)).length ≤ 200 →
      List.Perm (SearchHandler.search db q).research
        (fullSelect db (fun _ jr =>
          match jr.linkR with
          | some l => l.2 == strUpper (pyStrip q)
          | none => false))) := by
  have hne : pyStrip q ≠ "" := by
    intro e
    rw [e] at h
    exact absurd h (by decide)
  have hg := search_guard_false hne
  have hP := is_research_id_eq_false_of_researcher h
  have heq : SearchHandler.search db q =
      { q := q, search_type := some "researcher_id",
        researchers := (ResearcherDataHandler.get_by_id db (pyStrip q)).toList,
        research := ResearchDataHandler.get_by_researcher_id db (pyStrip q) 200,
        keywords := [] } := by
    rcases hgb : ResearcherDataHandler.get_by_id db (pyStrip q) with _ | r <;>
      simp [SearchHandler.search, hg, hP, h, hgb, Option.toList]
  rw [heq]
  refine ⟨rfl, rfl, toList_length_le_one _, rfl, ?_, ?_⟩
  · intro p hp
    unfold ResearchDataHandler.get_by_researcher_id at hp
    have hp1 := mem_of_mem_sortTake hp
    obtain ⟨rd, _, hgr⟩ := mem_fullSelect hp1
    obtain ⟨hid, jr, hjr, hpred⟩ := groupRecord_eq_some hgr
    rcases hl : jr.linkR with _ | l
    · rw [hl] at hpred
      simp at hpred
    · rw [hl] at hpred
      have hl2 : l.2 = strUpper (pyStrip q) := eq_of_beq hpred
      obtain ⟨hmm, hfst⟩ := joinRows_linkR hjr hl
      exact ⟨l, hmm, by rw [hfst, hid], hl2⟩
  · intro hlen
    unfold ResearchDataHandler.get_by_researcher_id
    exact sortTake_perm_of_le hlen

/-- C2 witness: the query "r001" on the populated database. -/
theorem C2_researcher_id_witness :
    (SearchHandler.search dbMain "r001").search_type = some "researcher_id" ∧
    (SearchHandler.search dbMain "r001").researchers =
      (ResearcherDataHandler.get_by_id dbMain (pyStrip "r001")).toList ∧
    (SearchHandler.search dbMain "r001").researchers.length ≤ 1 ∧
    (SearchHandler.search dbMain "r001").research =
      ResearchDataHandler.get_by_researcher_id dbMain (pyStrip "r001") 200 ∧
    (∀ p ∈ (SearchHandler.search dbMain "r001").research, ∃ lnk ∈ dbMain.research_researchers,
        lnk.1 = p.research_id ∧ lnk.2 = strUpper (pyStrip "r001")) ∧
    ((fullSelect dbMain (fun _ jr =>
        match jr.linkR with
        | some l => l.2 == strUpper (pyStrip "r001")
        | none => false)).length ≤ 200 →
      List.Perm (SearchHandler.search dbMain "r001").research
        (fullSelect dbMain (fun _ jr =>
          match jr.linkR with
          | some l => l.2 == strUpper (pyStrip "r001")
          | none => false))) :=
  C2_researcher_id dbMain "r001" (by decide)

/-- C3: a non-identifier query that exactly (case-insensitively)
matches a stored keyword is classified `keyword` — never `title`, even
when the query also occurs inside some publication title — and the
bundle carries the matching keyword entries together with the
publications linked to any matching keyword id. -/
theorem C3_keyword_beats_title (db : DB) (q : String)
    (hne : pyStrip q ≠ "")
    (hP : SearchHandler.is_research_id (pyStrip q) = false)
    (hR : SearchHandler.is_researcher_id (pyStrip q) = false)
    (hk : ∃ k ∈ db.keywords, strLower k.keyword = strLower (pyStrip q))
    (htitle : ∃ rd ∈ db.research_data,
      List.IsInfix (strLower (pyStrip q)).data (strLower rd.title).data) :
    (SearchHandler.search db q).search_type = some "keyword" ∧
    (SearchHandler.search db q).search_type ≠ some "title" ∧
    (SearchHandler.search db q).keywords = KeywordDataHandler.search_exact db (pyStrip q) 50 ∧
    (SearchHandler.search db q).research =
      ResearchDataHandler.get_by_keyword_ids db
        ((KeywordDataHandler.search_exact db (pyStrip q) 50).map (fun k => k.keyword_id)) 200 ∧
    (∀ p ∈ (SearchHandler.search db q).research, ∃ lnk ∈ db.research_keywords,
        lnk.1 = p.research_id ∧
        lnk.2 ∈ (KeywordDataHandler.search_exact db (pyStrip q) 50).map
          (fun k => k.keyword_id)) := by
  have hg := search_guard_false hne
  have hke := search_exact_isEmpty_false hk
  have heq : SearchHandler.search db q =
      { q := q, search_type := some "keyword", researchers := [],
        research := ResearchDataHandler.get_by_keyword_ids db
          ((KeywordDataHandler.search_exact db (pyStrip q) 50).map (fun k => k.keyword_id)) 200,
        keywords := KeywordDataHandler.search_exact db (pyStrip q) 50 } := by
    simp [SearchHandler.search, hg, hP, hR, hke]
  rw [heq]
  refine ⟨rfl, fun e => absurd (Option.some.inj e) (by decide), rfl, rfl, ?_⟩
  intro p hp
  unfold ResearchDataHandler.get_by_keyword_ids at hp
  split at hp
  · simp at hp
  · have hp1 := mem_of_mem_sortTake hp
    obtain ⟨rd, _, hgr⟩ := mem_fullSelect hp1
    obtain ⟨hid, jr, hjr, hpred⟩ := groupRecord_eq_some hgr
    rcases hl : jr.linkK with _ | l
    · rw [hl] at hpred
      simp at hpred
    · rw [hl] at hpred
      have hmem2 : l.2 ∈ (KeywordDataHandler.search_exact db (pyStrip q) 50).map
          (fun k => k.keyword_id) := by simpa using hpred
      obtain ⟨hmm, hfst⟩ := joinRows_linkK hjr hl
      exact ⟨l, hmm, by rw [hfst, hid], hmem2⟩

/-- C3 witness: the query "DATABASES" on the populated database, where
"databases" is both a stored keyword and a substring of the title
"Advances in Databases". -/
theorem C3_keyword_beats_title_witness :
    (SearchHandler.search dbMain "DATABASES").search_type = some "keyword" ∧
    (SearchHandler.search dbMain "DATABASES").search_type ≠ some "title" ∧
    (SearchHandler.search dbMain "DATABASES").keywords =
      KeywordDataHandler.search_exact dbMain (pyStrip "DATABASES") 50 ∧
    (SearchHandler.search dbMain "DATABASES").research =
      ResearchDataHandler.get_by_keyword_ids dbMain
        ((KeywordDataHandler.search_exact dbMain (pyStrip "DATABASES") 50).map
          (fun k => k.keyword_id)) 200 ∧
    (∀ p ∈ (SearchHandler.search dbMain "DATABASES").research,
      ∃ lnk ∈ dbMain.research_keywords,
        lnk.1 = p.research_id ∧
        lnk.2 ∈ (KeywordDataHandler.search_exact dbMain (pyStrip "DATABASES") 50).map
          (fun k => k.keyword_id)) :=
  C3_keyword_beats_title dbMain "DATABASES" (by decide) (by decide) (by decide)
    (by decide) (by decide)

/-- C4 counterexample: in a database whose keyword vocabulary contains
the single-character keyword "a", the one-character query "a" is
classified `keyword`, not `first_character` — the exact-keyword branch
runs before the single-character branch. -/
theorem C4_single_char_counterexample :
    (pyStrip "a").length = 1 ∧
    (SearchHandler.search dbK "a").search_type = some "keyword" ∧
    ¬ (SearchHandler.search dbK "a").search_type = some "first_character" := by
  decide

/-- C4 (amended): a query whose stripped form is exactly one character
is never classified `name`; it is classified `first_character` exactly
when the exact-keyword lookup and the title contains-search for it are
both empty, and in that case both name-prefix result lists are
returned. -/
theorem C4_single_char (db : DB) (q : String) (h1 : (pyStrip q).length = 1) :
    (SearchHandler.search db q).search_type ≠ some "name" ∧
    ((SearchHandler.search db q).search_type = some "first_character" ↔
      (KeywordDataHandler.search_exact db (pyStrip q) 50 = [] ∧
       ResearchDataHandler.search_by_title db (pyStrip q) 200 = [])) ∧
    (KeywordDataHandler.search_exact db (pyStrip q) 50 = [] →
     ResearchDataHandler.search_by_title db (pyStrip q) 200 = [] →
     (SearchHandler.search db q).researchers =
        ResearcherDataHandler.search_by_name_prefix db (pyStrip q) 200 ∧
     (SearchHandler.search db q).research =
        ResearchDataHandler.search_by_name_prefix db (pyStrip q) 200) := by
  have hne : pyStrip q ≠ "" := by
    intro e
    rw [e] at h1
    exact absurd h1 (by decide)
  have hg := search_guard_false hne
  obtain ⟨hP, hR⟩ := id_patterns_false_of_single h1
  have hsc : SearchHandler.is_single_char (pyStrip q) = true := by
    simp [SearchHandler.is_single_char, h1]
  by_cases hkw : (KeywordDataHandler.search_exact db (pyStrip q) 50).isEmpty = true
  · by_cases ht : (ResearchDataHandler.search_by_title db (pyStrip q) 200).isEmpty = true
    · have heq : SearchHandler.search db q =
          { q := q, search_type := some "first_character",
            researchers := ResearcherDataHandler.search_by_name_prefix db (pyStrip q) 200,
            research := ResearchDataHandler.search_by_name_prefix db (pyStrip q) 200,
            keywords := [] } := by
        simp [SearchHandler.search, hg, hP, hR, hkw, ht, hsc]
      rw [heq]
      refine ⟨fun e => absurd (Option.some.inj e) (by decide), ?_, fun _ _ => ⟨rfl, rfl⟩⟩
      constructor
      · intro _
        exact ⟨List.isEmpty_iff.mp hkw, List.isEmpty_iff.mp ht⟩
      · intro _
        rfl
    · have ht' := bool_eq_false ht
      have heq : SearchHandler.search db q =
          { q := q, search_type := some "title", researchers := [],
            research := ResearchDataHandler.search_by_title db (pyStrip q) 200,
            keywords := [] } := by
        simp [SearchHandler.search, hg, hP, hR, hkw, ht']
      rw [heq]
      refine ⟨fun e => absurd (Option.some.inj e) (by decide), ?_, ?_⟩
      · constructor
        · intro e
          exact absurd (Option.some.inj e) (by decide)
        · rintro ⟨_, htt⟩
          rw [htt] at ht'
          simp at ht'
      · intro _ htt
        rw [htt] at ht'
        simp at ht'
  · have hkw' := bool_eq_false hkw
    have heq : SearchHandler.search db q =
        { q := q, search_type := some "keyword", researchers := [],
          research := ResearchDataHandler.get_by_keyword_ids db
            ((KeywordDataHandler.search_exact db (pyStrip q) 50).map
              (fun k => k.keyword_id)) 200,
          keywords := KeywordDataHandler.search_exact db (pyStrip q) 50 } := by
      simp [SearchHandler.search, hg, hP, hR, hkw']
    rw [heq]
    refine ⟨fun e => absurd (Option.some.inj e) (by decide), ?_, ?_⟩
    · constructor
      · intro e
        exact absurd (Option.some.inj e) (by decide)
      · rintro ⟨hke, _⟩
        rw [hke] at hkw'
        simp at hkw'
    · intro hke _
      rw [hke] at hkw'
      simp at hkw'

/-- C4 witness: the query "z" on a database where no keyword equals
"z" and no title contains "z"; the classification is
`first_character`. -/
theorem C4_single_char_witness :
    (SearchHandler.search dbSingle "z").search_type ≠ some "name" ∧
    ((SearchHandler.search dbSingle "z").search_type = some "first_character" ↔
      (KeywordDataHandler.search_exact dbSingle (pyStrip "z") 50 = [] ∧
       ResearchDataHandler.search_by_title dbSingle (pyStrip "z") 200 = [])) ∧
    (KeywordDataHandler.search_exact dbSingle (pyStrip "z") 50 = [] →
     ResearchDataHandler.search_by_title dbSingle (pyStrip "z") 200 = [] →
     (SearchHandler.search dbSingle "z").researchers =
        ResearcherDataHandler.search_by_name_prefix dbSingle (pyStrip "z") 200 ∧
     (SearchHandler.search dbSingle "z").research =
        ResearchDataHandler.search_by_name_prefix dbSingle (pyStrip "z") 200) :=
  C4_single_char dbSingle "z" (by decide)

/-- C7: evidence that user-supplied text is NOT matched literally by
the contains-searches.  The title contains-search for the query "%"
returns the publication titled "abc" even though no stored title
contains the character `%`: the interpolated text is interpreted as a
`LIKE` wildcard.  (The same interpolation is used by every prefix and
contains search of the service.) -/
theorem C7_wildcard_not_literal :
    (ResearchDataHandler.search_by_title dbT "%" 200).map (fun r => r.research_id) = ["P005"] ∧
    (∀ rd ∈ dbT.research_data, ¬ List.IsInfix "%".data rd.title.data) ∧
    (∀ rd ∈ dbT.research_data, ¬ List.IsInfix "%".data (strLower rd.title).data) := by
  decide

/-- C10: the keyword list of a search bundle is non-empty exactly when
the bundle was classified `keyword`; equivalently (contrapositive of
the forward direction), under every other classification — including
the empty-query bundle — the keyword list is exactly empty. -/
theorem C10_keywords_iff_keyword_type (db : DB) (q : String) :
    (SearchHandler.search db q).keywords ≠ [] ↔
      (SearchHandler.search db q).search_type = some "keyword" := by
  have hiff : (SearchHandler.search db q).keywords ≠ [] ↔
      (SearchHandler.search db q).search_type = some "keyword" := by
    by_cases h0 : (q == "" || pyStrip q == "") = true
    · simp [SearchHandler.search, h0]
    · have h0' := bool_eq_false h0
      by_cases h1 : SearchHandler.is_research_id (pyStrip q) = true
      · rcases hgb : ResearchDataHandler.get_by_id db (pyStrip q) with _ | r <;>
          simp [SearchHandler.search, h0', h1, hgb]
      · have h1' := bool_eq_false h1
        by_cases h2 : SearchHandler.is_researcher_id (pyStrip q) = true
        · rcases hgb : ResearcherDataHandler.get_by_id db (pyStrip q) with _ | r <;>
            simp [SearchHandler.search, h0', h1', h2, hgb]
        · have h2' := bool_eq_false h2
          by_cases h3 : (KeywordDataHandler.search_exact db (pyStrip q) 50).isEmpty = true
          · by_cases h4 :
                (ResearchDataHandler.search_by_title db (pyStrip q) 200).isEmpty = true
            · by_cases h5 : SearchHandler.is_single_char (pyStrip q) = true
              · simp [SearchHandler.search, h0', h1', h2', h3, h4, h5]
              · simp [SearchHandler.search, h0', h1', h2', h3, h4, bool_eq_false h5]
            · simp [SearchHandler.search, h0', h1', h2', h3, bool_eq_false h4]
          · have h3' := bool_eq_false h3
            simp [SearchHandler.search, h0', h1', h2', h3']
            intro e
            rw [e] at h3'
            simp at h3'
  exact hiff
